import Mathlib

/-!
Shallow embedding of the botburrow hub core (key rotation, credential
verification, distributed cache invalidation) and proofs of the spec claims.

Sources embedded:
- src/hub/config.py       (Settings)
- src/hub/database/__init__.py (Agent, ApiKeyHistory, AgentRepository,
  ApiKeyHistoryRepository)
- src/hub/auth.py         (verify_agent_api_key)
- src/hub/api/v1/agents.py (generate_api_key, regenerate_api_key error mapping)
- src/hub/cache.py        (DistributedCache)

Conventions: timestamps are natural numbers (seconds); Python `str` is Lean
`String`; `datetime.now()` / `uuid.uuid4()` / `secrets.token_bytes` are
modelled as explicit parameters supplied by the environment; SQL tables are
lists of rows in insertion order; Python `dict` is an association list in
insertion order.
-/

namespace Botburrow

/-- Python `s.startswith(p)` on strings. -/
def strStartsWith (s p : String) : Bool := decide (p.data <+: s.data)

/-- Settings from src/hub/config.py (the fields the core uses):
`api_key_prefix` (default "botburrow_agent_") and `api_key_length`
(default 32 bytes of randomness). -/
structure Settings where
  apiKeyPrefixStr : String := "botburrow_agent_"
  apiKeyLength : Nat := 32
deriving DecidableEq, Repr

/-- The global `settings = Settings()` instance with all defaults. -/
def defaultSettings : Settings := {}

/-! ## Database model (src/hub/database/__init__.py) -/

/-- Row of the `agents` table (the columns the core claims touch:
`id`, `name`, `api_key_hash`, `api_key_expires_at`). -/
structure Agent where
  id : String
  name : String
  apiKeyHash : String
  apiKeyExpiresAt : Option Nat
deriving DecidableEq, Repr

/-- Row of the `api_key_history` table. -/
structure ApiKeyHistory where
  id : String
  agentId : String
  oldKeyHash : String
  rotatedAt : Nat
  expiresAt : Nat
deriving DecidableEq, Repr

/-- Database state: the two tables, rows in insertion order. -/
structure Db where
  agents : List Agent
  history : List ApiKeyHistory
deriving DecidableEq, Repr

/-- Result of SQLAlchemy `scalar_one_or_none()`: no row, one row, or the
`MultipleResultsFound` exception. -/
inductive ScalarResult (α : Type) where
  | none : ScalarResult α
  | one (a : α) : ScalarResult α
  | multiple : ScalarResult α
deriving DecidableEq, Repr

def scalarOneOrNone {α : Type} : List α → ScalarResult α
  | [] => .none
  | [a] => .one a
  | _ => .multiple

/-- `AgentRepository.get_by_id`: `select(Agent).where(Agent.id == agent_id)`
then `scalar_one_or_none()`. -/
def AgentRepository.get_by_id (db : Db) (agentId : String) : ScalarResult Agent :=
  scalarOneOrNone (db.agents.filter (fun a => a.id == agentId))

/-- `AgentRepository.get_by_api_key_hash`:
`select(Agent).where(Agent.api_key_hash == api_key_hash)` then
`scalar_one_or_none()`. -/
def AgentRepository.get_by_api_key_hash (db : Db) (h : String) : ScalarResult Agent :=
  scalarOneOrNone (db.agents.filter (fun a => a.apiKeyHash == h))

/-- `ApiKeyHistoryRepository.create`: constructs the row and appends it to the
table (`session.add` + `flush`); the generated uuid primary key is supplied
by the environment as `entryId`. -/
def ApiKeyHistoryRepository.create (db : Db) (entryId agentId oldKeyHash : String)
    (rotatedAt expiresAt : Nat) : ApiKeyHistory × Db :=
  let entry : ApiKeyHistory :=
    { id := entryId, agentId := agentId, oldKeyHash := oldKeyHash,
      rotatedAt := rotatedAt, expiresAt := expiresAt }
  (entry, { db with history := db.history ++ [entry] })

/-- `ApiKeyHistoryRepository.get_valid_old_key`:
`select(ApiKeyHistory).where(old_key_hash == h, expires_at > now)` then
`scalar_one_or_none()`. -/
def ApiKeyHistoryRepository.get_valid_old_key (db : Db) (h : String) (now : Nat) :
    ScalarResult ApiKeyHistory :=
  scalarOneOrNone (db.history.filter
    (fun e => e.oldKeyHash == h && decide (now < e.expiresAt)))

/-- Outcome of `AgentRepository.update_api_key`: the updated agent, the
not-found sentinel `None`, the `ValueError` raised on an old-hash mismatch
(carrying the expected and supplied hashes), or a propagated
`MultipleResultsFound`. -/
inductive RotateOutcome where
  | rotated (agent : Agent) : RotateOutcome
  | notFound : RotateOutcome
  | hashMismatch (expected got : String) : RotateOutcome
  | dbError : RotateOutcome
deriving DecidableEq, Repr

/-- `AgentRepository.update_api_key`: read the agent; `None` if absent; raise
`ValueError` if `old_key_hash` differs from the stored hash; otherwise append
one history row for the old key and overwrite the agent's `api_key_hash`.
`rotated_at` defaults to `datetime.now()` at the call site, modelled as an
explicit argument; the history row's uuid is `entryId`. -/
def AgentRepository.update_api_key (db : Db) (agentId newApiKeyHash oldKeyHash : String)
    (gracePeriodExpiresAt rotatedAt : Nat) (entryId : String) : RotateOutcome × Db :=
  match AgentRepository.get_by_id db agentId with
  | .multiple => (.dbError, db)
  | .none => (.notFound, db)
  | .one agent =>
    if agent.apiKeyHash != oldKeyHash then
      (.hashMismatch agent.apiKeyHash oldKeyHash, db)
    else
      let db1 := (ApiKeyHistoryRepository.create db entryId agentId oldKeyHash
        rotatedAt gracePeriodExpiresAt).2
      let agents1 := db1.agents.map
        (fun a => if a.id == agentId then { a with apiKeyHash := newApiKeyHash } else a)
      (.rotated { agent with apiKeyHash := newApiKeyHash },
       { db1 with agents := agents1 })

/-- HTTP status produced by the `try`/`except` in
`regenerate_api_key` (src/hub/api/v1/agents.py): `ValueError` (hash
mismatch, i.e. a concurrent modification) is answered with 409 CONFLICT;
any other exception with 500; success with 200. A `None` result from
`update_api_key` makes the handler dereference `None` and also ends in a
500 by the generic handler. -/
def regenerateHttpStatus : RotateOutcome → Nat
  | .rotated _ => 200
  | .hashMismatch _ _ => 409
  | .notFound => 500
  | .dbError => 500

/-! ## Credential verification (src/hub/auth.py) -/

/-- Result of `verify_agent_api_key`: the agent, an `HTTPException`
(status code and detail string), or a propagated database exception. -/
inductive VerifyResult where
  | ok (agent : Agent) : VerifyResult
  | httpError (statusCode : Nat) (detail : String) : VerifyResult
  | dbError : VerifyResult
deriving DecidableEq, Repr

/-- `verify_agent_api_key` (src/hub/auth.py lines 63-113). The SHA-256
digest `hashlib.sha256(key).hexdigest()` is modelled by the ambient digest
function `hashFn`. Order of checks, as in the source: missing credentials
(401), key-prefix format gate (403), current-hash lookup, history-ledger
lookup of still-valid old keys, otherwise 401. -/
def verify_agent_api_key (db : Db) (hashFn : String → String) (s : Settings)
    (credentials : Option String) (now : Nat) : VerifyResult :=
  match credentials with
  | Option.none => .httpError 401 "API key required"
  | Option.some apiKey =>
    if strStartsWith apiKey s.apiKeyPrefixStr then
      let apiKeyHash := hashFn apiKey
      match AgentRepository.get_by_api_key_hash db apiKeyHash with
      | .multiple => .dbError
      | .one agent => .ok agent
      | .none =>
        match ApiKeyHistoryRepository.get_valid_old_key db apiKeyHash now with
        | .multiple => .dbError
        | .one entry =>
          match AgentRepository.get_by_id db entry.agentId with
          | .multiple => .dbError
          | .one agent => .ok agent
          | .none => .httpError 401 "Invalid API key"
        | .none => .httpError 401 "Invalid API key"
    else
      .httpError 403 "Invalid API key format"

/-! ## Key issuance (src/hub/api/v1/agents.py) -/

/-- Lowercase hex digit of a nibble, as produced by Python `bytes.hex()`. -/
def hexDigit (n : Nat) : Char :=
  if n < 10 then Char.ofNat (48 + n) else Char.ofNat (87 + n)

/-- Two lowercase hex digits of one byte. -/
def byteToHex (b : Nat) : List Char := [hexDigit (b / 16), hexDigit (b % 16)]

/-- Python `bytes.hex()` over a byte sequence. -/
def bytesToHex (bs : List Nat) : String := String.mk ((bs.map byteToHex).flatten)

/-- `generate_api_key`: `settings.api_key_prefix + secrets.token_bytes(N).hex()`.
The `N = settings.api_key_length` random bytes are supplied by the
environment as `randomBytes`. -/
def generate_api_key (s : Settings) (randomBytes : List Nat) : String :=
  s.apiKeyPrefixStr ++ bytesToHex randomBytes

/-! ## Distributed cache (src/hub/cache.py)

Python `dict` is modelled as an association list in insertion order:
setting an existing key replaces the value in place, setting a fresh key
appends, and iteration order is list order. -/

/-- Python `d[k] = v` on a dict. -/
def dictInsert {α : Type} : List (String × α) → String → α → List (String × α)
  | [], k, v => [(k, v)]
  | p :: rest, k, v =>
    if p.1 == k then (k, v) :: rest else p :: dictInsert rest k v

/-- Python `d.get(k)` on a dict. -/
def dictGet {α : Type} (m : List (String × α)) (k : String) : Option α :=
  (m.find? (fun p => p.1 == k)).map (fun p => p.2)

/-- Python `d.pop(k, None)` / `del d[k]` on a dict (state part). -/
def dictRemove {α : Type} (m : List (String × α)) (k : String) : List (String × α) :=
  m.filter (fun p => p.1 != k)

/-- Redis `MATCH` glob over the pattern and key characters (`*` and `?`;
the character-class form is never used by this codebase). -/
def globMatch : List Char → List Char → Bool
  | [], [] => true
  | [], _ :: _ => false
  | '*' :: ps, [] => globMatch ps []
  | '*' :: ps, c :: cs => globMatch ps (c :: cs) || globMatch ('*' :: ps) cs
  | '?' :: _, [] => false
  | '?' :: ps, _ :: cs => globMatch ps cs
  | _ :: _, [] => false
  | p :: ps, c :: cs => (p == c) && globMatch ps cs
termination_by ps cs => ps.length + cs.length
decreasing_by all_goals simp_arith

/-- A cached Python value, at the granularity the cache code inspects:
a JSON dict with string fields (`value.get("config_source")` is read by
`_invalidate_by_source`), a JSON string, or a non-JSON-serializable object
(`json.dumps` raises `TypeError` on it). -/
inductive PyValue where
  | pydict (fields : List (String × String)) : PyValue
  | pystr (s : String) : PyValue
  | pyObj (tag : String) : PyValue
deriving DecidableEq, Repr

/-- Whether `json.dumps(value)` succeeds. -/
def jsonSerializable : PyValue → Bool
  | .pyObj _ => false
  | _ => true

/-- `value.get("config_source")` guarded by `isinstance(value, dict)`. -/
def valueConfigSource : PyValue → Option String
  | .pydict fields => dictGet fields "config_source"
  | _ => Option.none

/-- `CacheConfig` (src/hub/cache.py lines 26-39): the fields the claims
touch (`default_ttl`, `key_prefix`). -/
structure CacheConfig where
  defaultTtl : Nat := 300
  keyPrefixStr : String := "botburrow:cache:"
deriving DecidableEq, Repr

/-- State of a `DistributedCache` instance together with its environment:
`connected` is `self._connected and self._redis`; `remoteFailing` models a
remote store whose every call raises `redis.RedisError`; `remote` is the
Redis keyspace as (key, (deserialized value, ttl)) in insertion order;
`memory` is `self._memory_cache`. -/
structure DistributedCache where
  config : CacheConfig
  connected : Bool
  remoteFailing : Bool
  remote : List (String × (PyValue × Nat))
  memory : List (String × PyValue)
deriving DecidableEq, Repr

/-- `_make_key`: prepend the configured key prefix. -/
def DistributedCache.make_key (st : DistributedCache) (key : String) : String :=
  st.config.keyPrefixStr ++ key

/-- `DistributedCache.get`: when connected, try Redis first (any
`RedisError` is caught and logged); a Redis hit is returned deserialized; a
Redis miss or failure falls through to the in-memory mirror. -/
def DistributedCache.get (st : DistributedCache) (key : String) : Option PyValue :=
  let cacheKey := st.make_key key
  if st.connected && !st.remoteFailing then
    match dictGet st.remote cacheKey with
    | Option.some (v, _) => Option.some v
    | Option.none => dictGet st.memory cacheKey
  else
    dictGet st.memory cacheKey

/-- `DistributedCache.set`: serialize first (`json.dumps`; on failure return
`False` with nothing written); then `setex` on Redis when connected (a
`RedisError` is caught, leaving `success = False`); then always write the
in-memory mirror, evicting the first 500 dict entries when the mirror
exceeds 1000 entries. Python `ttl = ttl or default` maps `None` and `0` to
the configured default. -/
def DistributedCache.set (st : DistributedCache) (key : String) (value : PyValue)
    (ttl : Option Nat) : Bool × DistributedCache :=
  let cacheKey := st.make_key key
  let ttlv := match ttl with
    | Option.some t => if t == 0 then st.config.defaultTtl else t
    | Option.none => st.config.defaultTtl
  if jsonSerializable value then
    let redisOk := st.connected && !st.remoteFailing
    let remote1 := if redisOk then dictInsert st.remote cacheKey (value, ttlv) else st.remote
    let mem1 := dictInsert st.memory cacheKey value
    let mem2 := if mem1.length > 1000 then mem1.drop 500 else mem1
    (redisOk, { st with remote := remote1, memory := mem2 })
  else
    (false, st)

/-- `DistributedCache.delete`: delete from Redis when connected (errors
caught), delete from the mirror, and return `True` unconditionally
("True if deleted or not found"). -/
def DistributedCache.delete (st : DistributedCache) (key : String) :
    Bool × DistributedCache :=
  let cacheKey := st.make_key key
  let remote1 := if st.connected && !st.remoteFailing
    then dictRemove st.remote cacheKey else st.remote
  (true, { st with remote := remote1, memory := dictRemove st.memory cacheKey })

/-- `DistributedCache.invalidate_pattern` (src/hub/cache.py lines 226-256):
on Redis, `SCAN` with the prefixed glob pattern and delete each match; on
the in-memory mirror the source deletes every key that starts with the
configured key prefix (the glob pattern is not consulted there). Returns
the deletion count and the new state. -/
def DistributedCache.invalidate_pattern (st : DistributedCache) (pattern : String) :
    Nat × DistributedCache :=
  let searchPat := st.make_key pattern
  let redisOk := st.connected && !st.remoteFailing
  let redisCount := if redisOk then
      (st.remote.filter (fun p => globMatch searchPat.data p.1.data)).length
    else 0
  let remote1 := if redisOk then
      st.remote.filter (fun p => !globMatch searchPat.data p.1.data)
    else st.remote
  let memHits := st.memory.filter (fun p => strStartsWith p.1 st.config.keyPrefixStr)
  let memory1 := st.memory.filter (fun p => !strStartsWith p.1 st.config.keyPrefixStr)
  (redisCount + memHits.length, { st with remote := remote1, memory := memory1 })

/-- `DistributedCache.invalidate_all` = `invalidate_pattern("*")`. -/
def DistributedCache.invalidate_all (st : DistributedCache) : Nat × DistributedCache :=
  st.invalidate_pattern "*"

/-- An invalidation event as serialized onto the pub/sub channel. -/
structure InvalidationMessage where
  agentName : Option String
  configSource : Option String
deriving DecidableEq, Repr

/-- `DistributedCache.publish_invalidation`: returns the message delivered to
the channel, or `none` when skipped (not connected) or when `publish`
raises a `RedisError` (caught and logged). The cache state is untouched. -/
def DistributedCache.publish_invalidation (st : DistributedCache)
    (agentName configSource : Option String) : Option InvalidationMessage :=
  if st.connected && !st.remoteFailing then
    Option.some { agentName := agentName, configSource := configSource }
  else
    Option.none

/-- `_invalidate_by_source` (src/hub/cache.py lines 360-408): scan the
mirror for dict values whose `config_source` matches, delete those keys
from the mirror and (best effort) from Redis; then `SCAN` Redis for
prefixed `agent:*` keys and delete those whose payload's `config_source`
matches. -/
def DistributedCache.invalidate_by_source (st : DistributedCache) (source : String) :
    Nat × DistributedCache :=
  let redisOk := st.connected && !st.remoteFailing
  let keysToDelete := (st.memory.filter
    (fun p => valueConfigSource p.2 == Option.some source)).map (fun p => p.1)
  let memory1 := st.memory.filter
    (fun p => !(valueConfigSource p.2 == Option.some source))
  let remote1 := if redisOk then
      st.remote.filter (fun p => !keysToDelete.contains p.1)
    else st.remote
  let scanPat := st.make_key "agent:*"
  let remoteHit := fun (p : String × (PyValue × Nat)) =>
    globMatch scanPat.data p.1.data && valueConfigSource p.2.1 == Option.some source
  let redisCount := if redisOk then (remote1.filter remoteHit).length else 0
  let remote2 := if redisOk then remote1.filter (fun p => !remoteHit p) else remote1
  (keysToDelete.length + redisCount, { st with remote := remote2, memory := memory1 })

/-- Python truthiness of an optional string (`None` and `""` are falsy). -/
def isTruthy : Option String → Bool
  | Option.some s => !(s == "")
  | Option.none => false

/-- `_handle_invalidation` (src/hub/cache.py lines 332-358): dispatch on
which of `agent_name` / `config_source` are (truthily) present, as in the
source's `if`/`elif` chain. -/
def DistributedCache.handle_invalidation (st : DistributedCache)
    (agentName configSource : Option String) : DistributedCache :=
  if isTruthy agentName && isTruthy configSource then
    (st.invalidate_pattern
      ("agent:" ++ agentName.getD "" ++ ":" ++ configSource.getD "")).2
  else if isTruthy agentName then
    (st.invalidate_pattern ("agent:" ++ agentName.getD "" ++ ":*")).2
  else if isTruthy configSource then
    (st.invalidate_by_source (configSource.getD "")).2
  else
    (st.invalidate_pattern "*").2

/-! ## Concrete instances used by closed theorems and witnesses -/

/-- Python `any(p.1 == k for p in m)`: whether a dict has the key. -/
def containsKey {α : Type} (m : List (String × α)) (k : String) : Bool :=
  m.any (fun p => p.1 == k)

/-- Identity digest standing in for the ambient hash function in closed
statements (any concrete digest works; the code treats it abstractly). -/
def idDigest : String → String := fun s => s

def agentW : Agent :=
  { id := "a1", name := "bot-1", apiKeyHash := "botburrow_agent_H1",
    apiKeyExpiresAt := Option.none }

def dbW : Db := { agents := [agentW], history := [] }

def agentExpired : Agent :=
  { id := "a2", name := "bot-2", apiKeyHash := "botburrow_agent_k1",
    apiKeyExpiresAt := Option.some 5 }

def dbExpired : Db := { agents := [agentExpired], history := [] }

/-- A disconnected cache (the local-mirror-only regime). -/
def cacheDisconnected : DistributedCache :=
  { config := {}, connected := false, remoteFailing := false, remote := [], memory := [] }

def cacheBot1 : DistributedCache :=
  (cacheDisconnected.set "agent:bot-1:repoA" (.pystr "v1") Option.none).2

def cacheBot12 : DistributedCache :=
  (cacheBot1.set "agent:bot-2:repoA" (.pystr "v2") Option.none).2

def cacheAfterBot1Invalidation : DistributedCache :=
  cacheBot12.handle_invalidation (Option.some "bot-1") Option.none

/-! ## Helper lemmas -/

theorem scalarOneOrNone_eq_one {α : Type} {l : List α} {a : α}
    (h : scalarOneOrNone l = .one a) : l = [a] := by
  match l with
  | [] => simp [scalarOneOrNone] at h
  | [b] => simp [scalarOneOrNone] at h; simp [h]
  | _ :: _ :: _ => simp [scalarOneOrNone] at h

theorem filter_map_comm {α : Type} (l : List α) (f : α → α) (p : α → Bool)
    (hf : ∀ x, p (f x) = p x) :
    (l.map f).filter p = (l.filter p).map f := by
  induction l with
  | nil => rfl
  | cons x xs ih =>
    by_cases hx : p x = true
    · simp [List.filter_cons, hx, hf, ih]
    · simp at hx
      simp [List.filter_cons, hx, hf, ih]

theorem update_api_key_found (db : Db) (agentId newHash oldHash entryId : String)
    (g rotatedAt : Nat) (a : Agent)
    (h1 : AgentRepository.get_by_id db agentId = .one a)
    (h2 : a.apiKeyHash = oldHash) :
    (AgentRepository.update_api_key db agentId newHash oldHash (rotatedAt + g) rotatedAt entryId).1
      = .rotated { a with apiKeyHash := newHash } ∧
    (AgentRepository.update_api_key db agentId newHash oldHash (rotatedAt + g) rotatedAt entryId).2.history
      = db.history ++ [{ id := entryId, agentId := agentId, oldKeyHash := oldHash,
                         rotatedAt := rotatedAt, expiresAt := rotatedAt + g }] ∧
    AgentRepository.get_by_id
      (AgentRepository.update_api_key db agentId newHash oldHash (rotatedAt + g) rotatedAt entryId).2
      agentId = .one { a with apiKeyHash := newHash } := by
  have hfa : db.agents.filter (fun x => x.id == agentId) = [a] :=
    scalarOneOrNone_eq_one h1
  have hamem : a ∈ db.agents.filter (fun x => x.id == agentId) := by
    rw [hfa]; exact List.mem_singleton.mpr rfl
  have haid : (a.id == agentId) = true := (List.mem_filter.mp hamem).2
  refine ⟨?_, ?_, ?_⟩
  · simp [AgentRepository.update_api_key, h1, h2]
  · simp [AgentRepository.update_api_key, h1, h2, ApiKeyHistoryRepository.create]
  · simp only [AgentRepository.update_api_key, h1, h2, bne_self_eq_false,
      Bool.false_eq_true, if_false, ite_false]
    simp only [AgentRepository.get_by_id, ApiKeyHistoryRepository.create]
    rw [filter_map_comm _ _ _ (by intro x; by_cases hx : x.id == agentId <;> simp [hx])]
    rw [hfa]
    simp [haid, scalarOneOrNone]
    intro h
    exact absurd (by simpa using haid) h

theorem update_api_key_not_found (db : Db) (agentId newHash oldHash entryId : String)
    (ge ra : Nat)
    (h1 : AgentRepository.get_by_id db agentId = .none) :
    AgentRepository.update_api_key db agentId newHash oldHash ge ra entryId
      = (.notFound, db) := by
  simp [AgentRepository.update_api_key, h1]

theorem update_api_key_mismatch (db : Db) (agentId newHash oldHash entryId : String)
    (ge ra : Nat) (a : Agent)
    (h1 : AgentRepository.get_by_id db agentId = .one a)
    (h2 : a.apiKeyHash ≠ oldHash) :
    AgentRepository.update_api_key db agentId newHash oldHash ge ra entryId =
      (.hashMismatch a.apiKeyHash oldHash, db) := by
  simp [AgentRepository.update_api_key, h1, h2]

theorem rotate_grace_period_spec (db : Db) (agentId newHash oldHash entryId : String)
    (g now : Nat) (a : Agent) (hashFn : String → String) (s : Settings)
    (h1 : AgentRepository.get_by_id db agentId = .one a)
    (h2 : a.apiKeyHash = oldHash)
    (hHist : ∀ e ∈ db.history, e.oldKeyHash ≠ oldHash)
    (hNew : newHash ≠ oldHash)
    (hUniq : ∀ b ∈ db.agents, b.id ≠ agentId → b.apiKeyHash ≠ oldHash) :
    (∀ t, t < now + g →
      ApiKeyHistoryRepository.get_valid_old_key
        (AgentRepository.update_api_key db agentId newHash oldHash (now + g) now entryId).2
        oldHash t
      = .one { id := entryId, agentId := agentId, oldKeyHash := oldHash,
               rotatedAt := now, expiresAt := now + g }) ∧
    (∀ t, now + g ≤ t →
      ApiKeyHistoryRepository.get_valid_old_key
        (AgentRepository.update_api_key db agentId newHash oldHash (now + g) now entryId).2
        oldHash t = .none) ∧
    (∀ t rawKey, t < now + g → hashFn rawKey = oldHash →
      strStartsWith rawKey s.apiKeyPrefixStr = true →
      verify_agent_api_key
        (AgentRepository.update_api_key db agentId newHash oldHash (now + g) now entryId).2
        hashFn s (Option.some rawKey) t
      = .ok { a with apiKeyHash := newHash }) := by
  have hfa : db.agents.filter (fun x => x.id == agentId) = [a] :=
    scalarOneOrNone_eq_one h1
  have hdb : (AgentRepository.update_api_key db agentId newHash oldHash (now + g) now entryId).2
      = { agents := db.agents.map
            (fun x => if x.id == agentId then { x with apiKeyHash := newHash } else x),
          history := db.history ++
            [{ id := entryId, agentId := agentId, oldKeyHash := oldHash,
               rotatedAt := now, expiresAt := now + g }] } := by
    simp [AgentRepository.update_api_key, h1, h2, ApiKeyHistoryRepository.create]
  have hOldFilter : ∀ t, db.history.filter
      (fun e => e.oldKeyHash == oldHash && decide (t < e.expiresAt)) = [] := by
    intro t
    rw [List.filter_eq_nil_iff]
    intro e he
    simp only [Bool.and_eq_true, beq_iff_eq, decide_eq_true_eq, not_and]
    intro hk
    exact absurd hk (hHist e he)
  have hvalid : ∀ t, t < now + g →
      ApiKeyHistoryRepository.get_valid_old_key
        (AgentRepository.update_api_key db agentId newHash oldHash (now + g) now entryId).2
        oldHash t
      = .one { id := entryId, agentId := agentId, oldKeyHash := oldHash,
               rotatedAt := now, expiresAt := now + g } := by
    intro t ht
    rw [hdb]
    simp only [ApiKeyHistoryRepository.get_valid_old_key, List.filter_append, hOldFilter]
    simp [scalarOneOrNone, ht]
  refine ⟨hvalid, ?_, ?_⟩
  · intro t ht
    rw [hdb]
    simp only [ApiKeyHistoryRepository.get_valid_old_key, List.filter_append, hOldFilter]
    simp [scalarOneOrNone, Nat.not_lt.mpr ht]
  · intro t rawKey ht hhash hfmt
    have hNoCurrent : (AgentRepository.update_api_key db agentId newHash oldHash
        (now + g) now entryId).2.agents.filter (fun x => x.apiKeyHash == oldHash) = [] := by
      rw [hdb]
      rw [List.filter_eq_nil_iff]
      intro x hx
      simp only [List.mem_map] at hx
      obtain ⟨b, hb, rfl⟩ := hx
      by_cases hbid : (b.id == agentId) = true
      · simp [hbid, hNew]
      · simp only [hbid, Bool.false_eq_true, if_false, ite_false, beq_iff_eq]
        simp only [beq_iff_eq] at hbid
        exact hUniq b hb hbid
    have hAfter := (update_api_key_found db agentId newHash oldHash entryId g now a h1 h2).2.2
    simp only [verify_agent_api_key, hfmt, if_true, hhash]
    rw [AgentRepository.get_by_api_key_hash]
    rw [hNoCurrent]
    simp only [scalarOneOrNone]
    rw [hvalid t ht]
    simp only
    rw [hAfter]

theorem dictGet_dictInsert {α : Type} (m : List (String × α)) (k : String) (v : α) :
    dictGet (dictInsert m k v) k = Option.some v := by
  induction m with
  | nil => simp [dictInsert, dictGet]
  | cons p rest ih =>
    by_cases hp : (p.1 == k) = true
    · simp [dictInsert, hp, dictGet]
    · simp only [dictInsert, hp, Bool.false_eq_true, if_false, ite_false]
      simp only [dictGet, List.find?] at ih ⊢
      simp [hp, ih]

theorem dictInsert_of_not_contains {α : Type} (m : List (String × α)) (k : String) (v : α)
    (h : containsKey m k = false) : dictInsert m k v = m ++ [(k, v)] := by
  induction m with
  | nil => rfl
  | cons p rest ih =>
    simp only [containsKey, List.any_cons, Bool.or_eq_false_iff] at h
    simp [dictInsert, h.1, ih (by simp [containsKey, h.2])]

theorem dictInsert_length_of_contains {α : Type} (m : List (String × α)) (k : String) (v : α)
    (h : containsKey m k = true) : (dictInsert m k v).length = m.length := by
  induction m with
  | nil => simp [containsKey] at h
  | cons p rest ih =>
    by_cases hp : (p.1 == k) = true
    · simp [dictInsert, hp]
    · simp only [containsKey, List.any_cons, hp, Bool.false_or] at h
      simp [dictInsert, hp, ih h]

theorem dictGet_insert_evict {α : Type} (m : List (String × α)) (ck : String) (v : α)
    (hb : m.length ≤ 1000) :
    dictGet (if (dictInsert m ck v).length > 1000
               then (dictInsert m ck v).drop 500
               else dictInsert m ck v) ck = Option.some v := by
  by_cases hlen : (dictInsert m ck v).length > 1000
  · have hcon : containsKey m ck = false := by
      by_contra hc
      have hc' : containsKey m ck = true := by
        revert hc; cases containsKey m ck <;> simp
      have := dictInsert_length_of_contains m ck v hc'
      omega
    have hins := dictInsert_of_not_contains m ck v hcon
    have hmlen : m.length = 1000 := by
      rw [hins] at hlen
      simp only [List.length_append, List.length_cons, List.length_nil] at hlen
      omega
    rw [if_pos hlen, hins]
    rw [List.drop_append_of_le_length (by omega)]
    unfold dictGet
    rw [List.find?_append]
    have hnone : (m.drop 500).find? (fun p => p.1 == ck) = Option.none := by
      rw [List.find?_eq_none]
      intro p hp
      have hpm : p ∈ m := List.drop_subset _ _ hp
      have hall := List.any_eq_false.mp hcon
      exact hall p hpm
    simp [hnone]
  · rw [if_neg hlen]
    exact dictGet_dictInsert m ck v

theorem set_state_local (st : DistributedCache) (k : String) (v : PyValue)
    (ttl : Option Nat)
    (hok : (st.connected && !st.remoteFailing) = false)
    (hv : jsonSerializable v = true) :
    (st.set k v ttl).2 =
      { st with
          memory :=
            if (dictInsert st.memory (st.make_key k) v).length > 1000 then
              (dictInsert st.memory (st.make_key k) v).drop 500
            else dictInsert st.memory (st.make_key k) v } := by
  simp [DistributedCache.set, hv, hok]

theorem get_via_memory (st : DistributedCache) (k : String)
    (hok : (st.connected && !st.remoteFailing) = false) :
    st.get k = dictGet st.memory (st.make_key k) := by
  simp [DistributedCache.get, hok]

theorem set_then_get_local (st : DistributedCache) (k : String) (v : PyValue)
    (ttl : Option Nat)
    (hu : st.connected = false ∨ st.remoteFailing = true)
    (hv : jsonSerializable v = true)
    (hb : st.memory.length ≤ 1000) :
    ((st.set k v ttl).2).get k = Option.some v := by
  have hok : (st.connected && !st.remoteFailing) = false := by
    rcases hu with h | h <;> simp [h]
  rw [set_state_local st k v ttl hok hv]
  rw [get_via_memory _ _ (by simpa using hok)]
  simp only [DistributedCache.make_key]
  exact dictGet_insert_evict st.memory (st.config.keyPrefixStr ++ k) v hb

theorem set_unserializable (st : DistributedCache) (k : String) (v : PyValue)
    (ttl : Option Nat) (h : jsonSerializable v = false) :
    st.set k v ttl = (false, st) := by
  simp [DistributedCache.set, h]

theorem publish_noop (st : DistributedCache) (an cs : Option String)
    (hu : st.connected = false ∨ st.remoteFailing = true) :
    st.publish_invalidation an cs = Option.none := by
  have hok : (st.connected && !st.remoteFailing) = false := by
    rcases hu with h | h <;> simp [h]
  simp [DistributedCache.publish_invalidation, hok]

theorem filter_idem {α : Type} (l : List α) (p : α → Bool) :
    (l.filter p).filter p = l.filter p := by
  rw [List.filter_filter]
  simp

theorem filter_not_filter {α : Type} (l : List α) (p : α → Bool) :
    (l.filter (fun a => !p a)).filter p = [] := by
  rw [List.filter_filter]
  simp

theorem invalidate_pattern_idem (st : DistributedCache) (pat : String) :
    ((st.invalidate_pattern pat).2.invalidate_pattern pat).2
      = (st.invalidate_pattern pat).2 := by
  unfold DistributedCache.invalidate_pattern DistributedCache.make_key
  by_cases hok : (st.connected && !st.remoteFailing) = true
  · simp [hok, filter_idem]
  · simp only [Bool.not_eq_true] at hok
    simp [hok, filter_idem]

theorem invalidate_by_source_idem (st : DistributedCache) (source : String) :
    ((st.invalidate_by_source source).2.invalidate_by_source source).2
      = (st.invalidate_by_source source).2 := by
  unfold DistributedCache.invalidate_by_source DistributedCache.make_key
  by_cases hok : (st.connected && !st.remoteFailing) = true
  · simp only [hok, if_true, ite_true]
    simp [filter_not_filter, filter_idem]
  · simp only [Bool.not_eq_true] at hok
    simp only [hok, Bool.false_eq_true, if_false, ite_false]
    simp [filter_not_filter, filter_idem]

theorem handle_invalidation_idem (st : DistributedCache) (an cs : Option String) :
    (st.handle_invalidation an cs).handle_invalidation an cs
      = st.handle_invalidation an cs := by
  unfold DistributedCache.handle_invalidation
  by_cases h1 : (isTruthy an && isTruthy cs) = true
  · simp [h1, invalidate_pattern_idem]
  · by_cases h2 : isTruthy an = true
    · have h3 : isTruthy cs = false := by
        revert h1; rw [h2]; cases isTruthy cs <;> simp
      simp [h1, h2, h3, invalidate_pattern_idem]
    · by_cases h3 : isTruthy cs = true
      · simp [h1, h2, h3, invalidate_by_source_idem]
      · simp [h1, h2, h3, invalidate_pattern_idem]

theorem bytesToHex_length (bs : List Nat) : (bytesToHex bs).length = 2 * bs.length := by
  induction bs with
  | nil => rfl
  | cons b rest ih =>
    simp only [bytesToHex, List.map_cons, List.flatten_cons, byteToHex] at ih ⊢
    simp only [String.length, String.mk] at ih ⊢
    simp [ih]
    ring

theorem strStartsWith_append (p s : String) : strStartsWith (p ++ s) p = true := by
  unfold strStartsWith
  rw [decide_eq_true_eq]
  rw [String.data_append]
  exact List.prefix_append p.data s.data

theorem generate_key_length (s : Settings) (bs : List Nat)
    (h : bs.length = s.apiKeyLength) :
    (generate_api_key s bs).length = s.apiKeyPrefixStr.length + 2 * s.apiKeyLength := by
  unfold generate_api_key
  rw [String.length_append, bytesToHex_length, h]

theorem verify_no_format_reject (db : Db) (hashFn : String → String) (s : Settings)
    (key : String) (now : Nat)
    (hfmt : strStartsWith key s.apiKeyPrefixStr = true) :
    verify_agent_api_key db hashFn s (Option.some key) now
      ≠ .httpError 403 "Invalid API key format" := by
  simp only [verify_agent_api_key, hfmt, if_true, ite_true]
  cases hc : AgentRepository.get_by_api_key_hash db (hashFn key) with
  | one agent => simp
  | multiple => simp
  | none =>
    cases hh : ApiKeyHistoryRepository.get_valid_old_key db (hashFn key) now with
    | one entry =>
      cases hid : AgentRepository.get_by_id db entry.agentId <;> simp [hid]
    | multiple => simp
    | none => simp

theorem verify_format_gate (db : Db) (hashFn : String → String) (s : Settings)
    (tok : String) (now : Nat)
    (h : strStartsWith tok s.apiKeyPrefixStr = false) :
    verify_agent_api_key db hashFn s (Option.some tok) now
      = .httpError 403 "Invalid API key format" := by
  simp [verify_agent_api_key, h]

/-! ## Claim theorems -/

/-- C1: for an existing agent whose stored current hash equals the expected
old hash, `update_api_key` appends exactly one history row carrying the
agent id, the old hash, the rotation timestamp, and expiry = rotation time
+ grace period; overwrites the agent's current hash with the new hash; and
returns the updated agent. For a missing agent id it returns the `None`
sentinel with the database unchanged, so nothing is inserted. -/
theorem claim_C1_rotation_protocol (db dbN : Db)
    (agentId agentIdN newHash oldHash entryId : String) (g rotatedAt : Nat) (a : Agent)
    (h1 : AgentRepository.get_by_id db agentId = .one a)
    (h2 : a.apiKeyHash = oldHash)
    (h3 : AgentRepository.get_by_id dbN agentIdN = .none) :
    (AgentRepository.update_api_key db agentId newHash oldHash (rotatedAt + g) rotatedAt entryId).1
      = .rotated { a with apiKeyHash := newHash } ∧
    (AgentRepository.update_api_key db agentId newHash oldHash (rotatedAt + g) rotatedAt entryId).2.history
      = db.history ++ [{ id := entryId, agentId := agentId, oldKeyHash := oldHash,
                         rotatedAt := rotatedAt, expiresAt := rotatedAt + g }] ∧
    AgentRepository.get_by_id
      (AgentRepository.update_api_key db agentId newHash oldHash (rotatedAt + g) rotatedAt entryId).2
      agentId = .one { a with apiKeyHash := newHash } ∧
    AgentRepository.update_api_key dbN agentIdN newHash oldHash (rotatedAt + g) rotatedAt entryId
      = (.notFound, dbN) := by
  obtain ⟨hr, hh, hg⟩ := update_api_key_found db agentId newHash oldHash entryId g rotatedAt a h1 h2
  exact ⟨hr, hh, hg, update_api_key_not_found dbN agentIdN newHash oldHash entryId _ _ h3⟩

theorem claim_C1_witness :
    AgentRepository.get_by_id dbW "a1" = .one agentW ∧
    agentW.apiKeyHash = "botburrow_agent_H1" ∧
    AgentRepository.get_by_id dbW "zz" = .none ∧
    ((AgentRepository.update_api_key dbW "a1" "H2new" "botburrow_agent_H1" (100 + 50) 100 "e1").1
       = .rotated { agentW with apiKeyHash := "H2new" } ∧
     (AgentRepository.update_api_key dbW "a1" "H2new" "botburrow_agent_H1" (100 + 50) 100 "e1").2.history
       = dbW.history ++ [{ id := "e1", agentId := "a1", oldKeyHash := "botburrow_agent_H1",
                           rotatedAt := 100, expiresAt := 100 + 50 }] ∧
     AgentRepository.get_by_id
       (AgentRepository.update_api_key dbW "a1" "H2new" "botburrow_agent_H1" (100 + 50) 100 "e1").2
       "a1" = .one { agentW with apiKeyHash := "H2new" } ∧
     AgentRepository.update_api_key dbW "zz" "H2new" "botburrow_agent_H1" (100 + 50) 100 "e1"
       = (.notFound, dbW)) :=
  ⟨by decide, by decide, by decide,
   claim_C1_rotation_protocol dbW dbW "a1" "zz" "H2new" "botburrow_agent_H1" "e1" 50 100 agentW
     (by decide) (by decide) (by decide)⟩

/-- C2: for an existing agent, if the expected old hash does not equal the
stored current hash, `update_api_key` raises the concurrent-modification
`ValueError` and returns the database unchanged (no history row, hash
untouched); the endpoint's `except ValueError` handler surfaces this as an
HTTP 409 conflict. -/
theorem claim_C2_rotation_conflict (db : Db) (agentId newHash oldHash entryId : String)
    (ge ra : Nat) (a : Agent)
    (h1 : AgentRepository.get_by_id db agentId = .one a)
    (h2 : a.apiKeyHash ≠ oldHash) :
    AgentRepository.update_api_key db agentId newHash oldHash ge ra entryId =
      (.hashMismatch a.apiKeyHash oldHash, db) ∧
    regenerateHttpStatus (.hashMismatch a.apiKeyHash oldHash) = 409 :=
  ⟨update_api_key_mismatch db agentId newHash oldHash entryId ge ra a h1 h2, rfl⟩

theorem claim_C2_witness :
    AgentRepository.get_by_id dbW "a1" = .one agentW ∧
    agentW.apiKeyHash ≠ "stale_hash" ∧
    (AgentRepository.update_api_key dbW "a1" "H2new" "stale_hash" 150 100 "e1" =
       (.hashMismatch agentW.apiKeyHash "stale_hash", dbW) ∧
     regenerateHttpStatus (.hashMismatch agentW.apiKeyHash "stale_hash") = 409) :=
  ⟨by decide, by decide,
   claim_C2_rotation_conflict dbW "a1" "H2new" "stale_hash" "e1" 150 100 agentW
     (by decide) (by decide)⟩

/-- C3: after a rotation with grace period `g` retiring the hash
`oldHash` at time `now`, `get_valid_old_key` at any instant strictly
before `now + g` yields the recorded history entry, and `verify` on a raw
key digesting to `oldHash` resolves to the owning (updated) agent; at any
instant at or after `now + g`, `get_valid_old_key` fails. The uniqueness
hypotheses are the spec's credential-hash uniqueness invariant across the
agents table and the history ledger. -/
theorem claim_C3_grace_period_window (db : Db)
    (agentId newHash oldHash entryId rawKey : String)
    (g now t tExp : Nat) (a : Agent) (hashFn : String → String) (s : Settings)
    (h1 : AgentRepository.get_by_id db agentId = .one a)
    (h2 : a.apiKeyHash = oldHash)
    (hHist : ∀ e ∈ db.history, e.oldKeyHash ≠ oldHash)
    (hNew : newHash ≠ oldHash)
    (hUniq : ∀ b ∈ db.agents, b.id ≠ agentId → b.apiKeyHash ≠ oldHash)
    (ht : t < now + g) (htExp : now + g ≤ tExp)
    (hhash : hashFn rawKey = oldHash)
    (hfmt : strStartsWith rawKey s.apiKeyPrefixStr = true) :
    ApiKeyHistoryRepository.get_valid_old_key
      (AgentRepository.update_api_key db agentId newHash oldHash (now + g) now entryId).2
      oldHash t
      = .one { id := entryId, agentId := agentId, oldKeyHash := oldHash,
               rotatedAt := now, expiresAt := now + g } ∧
    ApiKeyHistoryRepository.get_valid_old_key
      (AgentRepository.update_api_key db agentId newHash oldHash (now + g) now entryId).2
      oldHash tExp = .none ∧
    verify_agent_api_key
      (AgentRepository.update_api_key db agentId newHash oldHash (now + g) now entryId).2
      hashFn s (Option.some rawKey) t
      = .ok { a with apiKeyHash := newHash } := by
  obtain ⟨hv, hn, hver⟩ := rotate_grace_period_spec db agentId newHash oldHash entryId
    g now a hashFn s h1 h2 hHist hNew hUniq
  exact ⟨hv t ht, hn tExp htExp, hver t rawKey ht hhash hfmt⟩

theorem claim_C3_witness :
    AgentRepository.get_by_id dbW "a1" = .one agentW ∧
    agentW.apiKeyHash = "botburrow_agent_H1" ∧
    (∀ e ∈ dbW.history, e.oldKeyHash ≠ "botburrow_agent_H1") ∧
    "H2new" ≠ "botburrow_agent_H1" ∧
    (∀ b ∈ dbW.agents, b.id ≠ "a1" → b.apiKeyHash ≠ "botburrow_agent_H1") ∧
    120 < 100 + 50 ∧ 100 + 50 ≤ 150 ∧
    idDigest "botburrow_agent_H1" = "botburrow_agent_H1" ∧
    strStartsWith "botburrow_agent_H1" defaultSettings.apiKeyPrefixStr = true ∧
    (ApiKeyHistoryRepository.get_valid_old_key
       (AgentRepository.update_api_key dbW "a1" "H2new" "botburrow_agent_H1" (100 + 50) 100 "e1").2
       "botburrow_agent_H1" 120
       = .one { id := "e1", agentId := "a1", oldKeyHash := "botburrow_agent_H1",
                rotatedAt := 100, expiresAt := 100 + 50 } ∧
     ApiKeyHistoryRepository.get_valid_old_key
       (AgentRepository.update_api_key dbW "a1" "H2new" "botburrow_agent_H1" (100 + 50) 100 "e1").2
       "botburrow_agent_H1" 150 = .none ∧
     verify_agent_api_key
       (AgentRepository.update_api_key dbW "a1" "H2new" "botburrow_agent_H1" (100 + 50) 100 "e1").2
       idDigest defaultSettings (Option.some "botburrow_agent_H1") 120
       = .ok { agentW with apiKeyHash := "H2new" }) :=
  ⟨by decide, by decide, by decide, by decide, by decide, by decide, by decide,
   by decide, by decide,
   claim_C3_grace_period_window dbW "a1" "H2new" "botburrow_agent_H1" "e1"
     "botburrow_agent_H1" 50 100 120 150 agentW idDigest defaultSettings
     (by decide) (by decide) (by decide) (by decide) (by decide) (by decide)
     (by decide) (by decide) (by decide)⟩

/-- C4: evaluation of `verify_agent_api_key` at the failing input. The
agent's stored `api_key_expires_at` is 5 and the instant is 10 (expiry in
the past), yet verification of a token digesting to the current hash
succeeds — the source never reads `api_key_expires_at`, so the result is
the same at every instant. The claim (and spec section 4.3) require
rejection once the credential expiry has passed. -/
theorem claim_C4_expired_current_key_accepted :
    verify_agent_api_key dbExpired idDigest defaultSettings
      (Option.some "botburrow_agent_k1") 10 = .ok agentExpired ∧
    agentExpired.apiKeyExpiresAt = Option.some 5 ∧
    (∀ now : Nat, verify_agent_api_key dbExpired idDigest defaultSettings
      (Option.some "botburrow_agent_k1") now = .ok agentExpired) := by
  refine ⟨by decide, by decide, ?_⟩
  have hfmt : strStartsWith "botburrow_agent_k1" defaultSettings.apiKeyPrefixStr = true := by
    decide
  have hc : AgentRepository.get_by_api_key_hash dbExpired (idDigest "botburrow_agent_k1")
      = .one agentExpired := by decide
  intro now
  simp [verify_agent_api_key, hfmt, hc]

/-- C5: evaluation of `_handle_invalidation` at the failing input, on the
local-mirror-only path (disconnected). Before the event, the key of the
other subject `bot-2` is cached; after handling the event naming only
subject `bot-1`, both subjects' keys are gone, because the in-memory
branch of `invalidate_pattern` deletes every key carrying the cache
prefix instead of the keys matching the pattern. The claim (and the
source's own docstring) require `bot-2`'s entry to survive. -/
theorem claim_C5_subject_invalidation_clears_other_subjects :
    cacheBot12.get "agent:bot-2:repoA" = Option.some (.pystr "v2") ∧
    cacheAfterBot1Invalidation.get "agent:bot-1:repoA" = Option.none ∧
    cacheAfterBot1Invalidation.get "agent:bot-2:repoA" = Option.none :=
  ⟨by decide, by decide, by decide⟩

/-- C6: with the remote store unavailable (not connected, or every remote
call raising), `set` followed by `get` on the same key still returns the
value through the local mirror, and `publish_invalidation` is a no-op
delivering nothing. The embedded operations are total functions, mirroring
that the source catches every remote error internally, so no exception
escapes `set`, `get` or `publish_invalidation`. The memory bound is the
invariant the source's own eviction maintains. -/
theorem claim_C6_remote_unavailable_local_fallback (st : DistributedCache)
    (k : String) (v : PyValue) (ttl : Option Nat) (an cs : Option String)
    (hu : st.connected = false ∨ st.remoteFailing = true)
    (hv : jsonSerializable v = true)
    (hb : st.memory.length ≤ 1000) :
    ((st.set k v ttl).2).get k = Option.some v ∧
    st.publish_invalidation an cs = Option.none :=
  ⟨set_then_get_local st k v ttl hu hv hb, publish_noop st an cs hu⟩

theorem claim_C6_witness :
    (cacheDisconnected.connected = false ∨ cacheDisconnected.remoteFailing = true) ∧
    jsonSerializable (.pystr "cfg") = true ∧
    cacheDisconnected.memory.length ≤ 1000 ∧
    (((cacheDisconnected.set "agent:bot-1:repoA" (.pystr "cfg") Option.none).2).get
        "agent:bot-1:repoA" = Option.some (.pystr "cfg") ∧
     cacheDisconnected.publish_invalidation (Option.some "bot-1") Option.none
        = Option.none) :=
  ⟨by decide, by decide, by decide,
   claim_C6_remote_unavailable_local_fallback cacheDisconnected "agent:bot-1:repoA"
     (.pystr "cfg") Option.none (Option.some "bot-1") Option.none
     (by decide) (by decide) (by decide)⟩

/-- C7: a bearer token that does not start with the configured key prefix
is always rejected with 403 "Invalid API key format". The result is the
same for every database state and every digest function, which is exactly
the statement that neither the digest nor any KeyStore or history-ledger
lookup influences (or is needed for) the outcome. -/
theorem claim_C7_format_gate_rejects (db : Db) (hashFn : String → String)
    (s : Settings) (tok : String) (now : Nat)
    (h : strStartsWith tok s.apiKeyPrefixStr = false) :
    verify_agent_api_key db hashFn s (Option.some tok) now
      = .httpError 403 "Invalid API key format" :=
  verify_format_gate db hashFn s tok now h

theorem claim_C7_witness :
    strStartsWith "not-an-agent-key" defaultSettings.apiKeyPrefixStr = false ∧
    verify_agent_api_key dbW idDigest defaultSettings
      (Option.some "not-an-agent-key") 0 = .httpError 403 "Invalid API key format" :=
  ⟨by decide,
   claim_C7_format_gate_rejects dbW idDigest defaultSettings "not-an-agent-key" 0 (by decide)⟩

/-- C8: handling the same invalidation message twice yields the same cache
state as handling it once, for every state and every combination of
`agent_name` / `config_source` present or absent (all four dispatch
branches of `_handle_invalidation`), and `delete` returns `True` also on
an absent key: eviction is idempotent. -/
theorem claim_C8_invalidation_idempotent (st st2 : DistributedCache)
    (an cs : Option String) (k : String) :
    (st.handle_invalidation an cs).handle_invalidation an cs
      = st.handle_invalidation an cs ∧
    (st2.delete k).1 = true :=
  ⟨handle_invalidation_idem st an cs, rfl⟩

/-- C9: every raw key issued by `generate_api_key` is the configured prefix
followed by the hex encoding of the N random bytes, so its length is
`len(prefix) + 2 * N` and it starts with the prefix; consequently `verify`
never rejects an issued key at its format gate. -/
theorem claim_C9_issued_key_format (s : Settings) (bs : List Nat) (db : Db)
    (hashFn : String → String) (now : Nat)
    (h : bs.length = s.apiKeyLength) :
    (generate_api_key s bs).length = s.apiKeyPrefixStr.length + 2 * s.apiKeyLength ∧
    strStartsWith (generate_api_key s bs) s.apiKeyPrefixStr = true ∧
    verify_agent_api_key db hashFn s (Option.some (generate_api_key s bs)) now
      ≠ .httpError 403 "Invalid API key format" :=
  ⟨generate_key_length s bs h,
   strStartsWith_append s.apiKeyPrefixStr (bytesToHex bs),
   verify_no_format_reject db hashFn s (generate_api_key s bs) now
     (strStartsWith_append s.apiKeyPrefixStr (bytesToHex bs))⟩

theorem claim_C9_witness :
    (List.replicate 32 7).length = defaultSettings.apiKeyLength ∧
    ((generate_api_key defaultSettings (List.replicate 32 7)).length
       = defaultSettings.apiKeyPrefixStr.length + 2 * defaultSettings.apiKeyLength ∧
     strStartsWith (generate_api_key defaultSettings (List.replicate 32 7))
       defaultSettings.apiKeyPrefixStr = true ∧
     verify_agent_api_key dbW idDigest defaultSettings
       (Option.some (generate_api_key defaultSettings (List.replicate 32 7))) 0
       ≠ .httpError 403 "Invalid API key format") :=
  ⟨by decide,
   claim_C9_issued_key_format defaultSettings (List.replicate 32 7) dbW idDigest 0 (by decide)⟩

/-- C10: `set` with a value `json.dumps` cannot serialize returns `False`
and leaves the whole cache state — remote store and local mirror —
unchanged: the serialization check precedes every write. -/
theorem claim_C10_set_unserializable_noop (st : DistributedCache) (k : String)
    (v : PyValue) (ttl : Option Nat)
    (h : jsonSerializable v = false) :
    st.set k v ttl = (false, st) :=
  set_unserializable st k v ttl h

theorem claim_C10_witness :
    jsonSerializable (.pyObj "socket") = false ∧
    cacheBot12.set "agent:bot-1:repoA" (.pyObj "socket") (Option.some 60)
      = (false, cacheBot12) :=
  ⟨by decide,
   claim_C10_set_unserializable_noop cacheBot12 "agent:bot-1:repoA" (.pyObj "socket")
     (Option.some 60) (by decide)⟩

end Botburrow
